import Mathlib

/-!
Verification development for the InsureClaim Vision motor-claim estimator.

The frontend (React/TypeScript) is embedded directly from the sources under
`frontend/src`.  The backend pipeline (image validator, perception engine,
reasoning adapter, pricing and approval engine) is present in the repository
only through its TypeScript type declarations (`types/claim.ts`) and the
specification; those parts are modelled from the spec, as marked on each
definition.

Monetary amounts are whole INR modelled as `Int`; the GST rate is modelled
as an exact fraction `gstNum / gstDen` (e.g. 18/100) so that currency
arithmetic is exact.
-/

namespace InsureClaim

/-! ### Data model (from `frontend/src/types/claim.ts`) -/

inductive RepairDecision
  | REPAIR
  | REPLACE
deriving DecidableEq, Repr

inductive ApprovalStatus
  | AUTO_APPROVE
  | MANUAL_REVIEW
  | DECLINED
deriving DecidableEq, Repr

inductive VehicleClass
  | hatchback
  | sedan
  | suv
  | luxury
deriving DecidableEq, Repr

inductive WorkshopType
  | independent
  | showroom
deriving DecidableEq, Repr

inductive PricingMode
  | oem
  | aftermarket
deriving DecidableEq, Repr

/-- Structure `PartDecision` from `types/claim.ts`: one per-part judgment of the
vision-reasoning stage.  Location percentages are whole percents. -/
structure PartDecision where
  part : String
  part_key : String
  decision : RepairDecision
  severity_score : Nat
  justification : String
  x_percentage : Int
  y_percentage : Int
deriving DecidableEq, Repr

/-- Structure `LLMResult` from `types/claim.ts`. -/
structure LLMResult where
  decisions : List PartDecision
  model_used : String
  prompt_tokens : Option Nat
deriving DecidableEq, Repr

/-- Structure `EstimateLineItem` from `types/claim.ts` (monetary fields in whole INR). -/
structure EstimateLineItem where
  part : String
  part_key : String
  action : RepairDecision
  severity_score : Nat
  part_cost_inr : Int
  labor_cost_inr : Int
  subtotal_inr : Int
  gst_inr : Int
  total_inr : Int
  pricing_mode : PricingMode
  workshop_type : WorkshopType
  is_estimated_cost : Bool
  justification : String
deriving DecidableEq, Repr

/-- Structure `EstimateResult` from `types/claim.ts`; the `gst_rate` number is carried
as the exact fraction `gst_rate_num / gst_rate_den`. -/
structure EstimateResult where
  line_items : List EstimateLineItem
  subtotal_inr : Int
  gst_inr : Int
  grand_total_inr : Int
  approval_status : ApprovalStatus
  approval_threshold_inr : Int
  gst_rate_num : Nat
  gst_rate_den : Nat
  vehicle_class : VehicleClass
  pricing_mode : PricingMode
  workshop_type : WorkshopType
deriving DecidableEq, Repr

/-! ### Pricing & Approval Engine (backend `pricing_service.py`, not under
`src/`; modelled from the spec §4.4 and §3) -/

/-- Modelled from the spec: the read-only price catalog collaborator (§6) —
`(part_key, vehicle_class, pricing_mode) → base price`, a class-average
heuristic fallback price, `(part_key, decision) → labor hours`, and
`workshop_type → hourly rate`.  All catalog figures are whole non-negative
INR / hours. -/
structure Catalog where
  basePrice : String → VehicleClass → PricingMode → Option Nat
  classAvgPrice : VehicleClass → Nat
  laborHours : String → RepairDecision → Nat
  hourlyRate : WorkshopType → Nat

/-- Modelled from the spec: the REPAIR severity-multiplier curve, in percent
(§4.4 step 2: "severity 1 → ×0.4 … severity 6 → ×1.3", monotonically
increasing).  Scores below 1 are treated as 1 and above 6 as 6. -/
def repairSeverityPct : Nat → Nat
  | 0 => 40
  | 1 => 40
  | 2 => 55
  | 3 => 70
  | 4 => 85
  | 5 => 100
  | _ => 130

/-- Modelled from the spec: the REPLACE severity-multiplier curve, in percent
(§4.4 step 2: a distinct curve that "does not discount low severity as
aggressively, since replacement cost is largely fixed"). -/
def replaceSeverityPct : Nat → Nat
  | 0 => 70
  | 1 => 70
  | 2 => 80
  | 3 => 90
  | 4 => 100
  | 5 => 115
  | _ => 130

/-- Modelled from the spec: severity multiplier (percent) for a decision. -/
def severityPct : RepairDecision → Nat → Nat
  | .REPAIR, s => repairSeverityPct s
  | .REPLACE, s => replaceSeverityPct s

/-- Modelled from the spec: `approval_threshold` is a pure function of
`vehicle_class`, monotone with vehicle value class (§4.4:
hatchback < sedan < suv < luxury); concrete defaults in whole INR. -/
def approvalThreshold : VehicleClass → Int
  | .hatchback => 15000
  | .sedan => 25000
  | .suv => 35000
  | .luxury => 50000

/-- Modelled from the spec: the approval decision (§4.4): grand total 0 →
DECLINED; strictly below the class threshold → AUTO_APPROVE; otherwise
(including exactly at the threshold) → MANUAL_REVIEW. -/
def approvalFor (grand : Int) (vc : VehicleClass) : ApprovalStatus :=
  if grand = 0 then .DECLINED
  else if grand < approvalThreshold vc then .AUTO_APPROVE
  else .MANUAL_REVIEW

/-- Modelled from the spec: part cost = base price scaled by the severity
multiplier (§4.4 step 2), in whole INR (the percent scaling floors). -/
def partCost (base pct : Nat) : Int :=
  (base : Int) * (pct : Int) / 100

/-- Modelled from the spec: `gst = round(subtotal × gst_rate)` under a
single rounding rule applied once (§3) — round half-up on the exact
fraction `gstNum / gstDen`. -/
def gstOf (sub : Int) (gstNum gstDen : Nat) : Int :=
  (sub * (gstNum : Int) + (gstDen : Int) / 2) / (gstDen : Int)

/-- Modelled from the spec: pricing of one decision (§4.4 steps 1–4):
catalog lookup with heuristic fallback (`is_estimated_cost`), severity
scaling, labor = hours × hourly rate, `subtotal = part + labor`,
`gst = round(subtotal × gst_rate)` rounded half-up once, and
`total = subtotal + gst`. -/
def priceLineItem (cat : Catalog) (vc : VehicleClass) (wt : WorkshopType)
    (pm : PricingMode) (gstNum gstDen : Nat) (d : PartDecision) : EstimateLineItem :=
  let looked := cat.basePrice d.part_key vc pm
  let base : Nat := looked.getD (cat.classAvgPrice vc)
  let part_cost : Int := partCost base (severityPct d.decision d.severity_score)
  let labor_cost : Int := (cat.laborHours d.part_key d.decision : Int) * (cat.hourlyRate wt : Int)
  let sub := part_cost + labor_cost
  let gst := gstOf sub gstNum gstDen
  { part := d.part
    part_key := d.part_key
    action := d.decision
    severity_score := d.severity_score
    part_cost_inr := part_cost
    labor_cost_inr := labor_cost
    subtotal_inr := sub
    gst_inr := gst
    total_inr := sub + gst
    pricing_mode := pm
    workshop_type := wt
    is_estimated_cost := looked.isNone
    justification := d.justification }

/-- Modelled from the spec: the pure Pricing & Approval Engine (§4.4):
`price(decisions, vehicle_class, workshop_type, pricing_mode, gst_rate,
catalog) → EstimateResult`, with `subtotal = Σ subtotals`, `gst = Σ gst`,
`grand_total = Σ totals` (never recomputed independently) and the approval
verdict from the grand total. -/
def price (decisions : List PartDecision) (vc : VehicleClass) (wt : WorkshopType)
    (pm : PricingMode) (gstNum gstDen : Nat) (cat : Catalog) : EstimateResult :=
  let items := decisions.map (priceLineItem cat vc wt pm gstNum gstDen)
  let sub := (items.map (·.subtotal_inr)).sum
  let gstSum := (items.map (·.gst_inr)).sum
  let grand := (items.map (·.total_inr)).sum
  { line_items := items
    subtotal_inr := sub
    gst_inr := gstSum
    grand_total_inr := grand
    approval_status := approvalFor grand vc
    approval_threshold_inr := approvalThreshold vc
    gst_rate_num := gstNum
    gst_rate_den := gstDen
    vehicle_class := vc
    pricing_mode := pm
    workshop_type := wt }

/-! ### Perception data model (from `types/claim.ts`) -/

/-- Structure `DamageRegion` from `types/claim.ts` (centroid and bounding box kept as
integer pixel coordinates). -/
structure DamageRegion where
  region_id : Nat
  area_px : Nat
  centroid_x : Int
  centroid_y : Int
  gradient_intensity_pct : Nat
deriving DecidableEq, Repr

/-- Structure `ImageMetrics` from `types/claim.ts` (scores carried as integer
percent / raw values). -/
structure ImageMetrics where
  brightness_pct : Nat
  blur_score : Nat
  width : Nat
  height : Nat
  contrast_score_pct : Nat
deriving DecidableEq, Repr

/-- Structure `PerceptionResult` from `types/claim.ts`. -/
structure PerceptionResult where
  poi : String
  orientation : String
  damage_regions : List DamageRegion
  image_metrics : ImageMetrics
  heatmap_path : Option String
deriving DecidableEq, Repr

/-- Structure `ClaimAnalysisResponse` from `types/claim.ts` (the `errors` field is the
list of non-fatal warning strings). -/
structure ClaimAnalysisResponse where
  claim_id : String
  status : String
  perception : PerceptionResult
  repair_decisions : LLMResult
  estimate : EstimateResult
  heatmap_url : Option String
  processing_time_ms : Option Nat
  errors : List String
deriving DecidableEq, Repr

/-! ### Reasoning Adapter and pipeline tail (backend `llm_agent.py` /
`main.py`, not under `src/`; modelled from the spec §4.3, §4.5, §7) -/

/-- Modelled from the spec: the possible outcomes of one call to the external
vision-reasoning collaborator (§4.3 failure semantics: unreachable, timed
out, or unparsable content, besides a successful judgment list). -/
inductive CollabOutcome
  | success (decisions : List PartDecision) (modelName : String)
  | unreachable
  | timedOut
  | unparsable
deriving DecidableEq, Repr

/-- A failed collaborator call (anything but a successful response). -/
def CollabOutcome.isFailure : CollabOutcome → Bool
  | .success _ _ => false
  | _ => true

/-- Modelled from the spec: the Reasoning Adapter (§4.3).  On success it
returns the decisions of the collaborator under its model name; on any failure it
falls back to an empty `LLMResult` with `model_used = "fallback"` and appends
a warning — it never raises (it is a total function). -/
def runReasoningAdapter (outcome : CollabOutcome) : LLMResult × List String :=
  match outcome with
  | .success ds modelName => ({ decisions := ds, model_used := modelName, prompt_tokens := none }, [])
  | _ => ({ decisions := [], model_used := "fallback", prompt_tokens := none },
          ["Vision-reasoning collaborator unavailable; degraded to empty fallback result"])

/-- Modelled from the spec: the pipeline tail after perception (§2, §4.5):
the Reasoning Adapter runs on the collaborator outcome, the Pricing &
Approval Engine prices its decisions, and Claim Assembly merges the warnings
into one immutable `ClaimAnalysisResponse`. -/
def runPipeline (claimId : String) (perception : PerceptionResult)
    (priorWarnings : List String) (outcome : CollabOutcome) (vc : VehicleClass)
    (wt : WorkshopType) (pm : PricingMode) (gstNum gstDen : Nat)
    (cat : Catalog) : ClaimAnalysisResponse :=
  let adapted := runReasoningAdapter outcome
  let est := price adapted.1.decisions vc wt pm gstNum gstDen cat
  { claim_id := claimId
    status := "completed"
    perception := perception
    repair_decisions := adapted.1
    estimate := est
    heatmap_url := perception.heatmap_path
    processing_time_ms := none
    errors := priorWarnings ++ adapted.2 }

/-! ### Image Validator (backend, not under `src/`; modelled from the
spec §4.1) -/

/-- Modelled from the spec: one raw uploaded item as the validator sees it —
its byte length and whether it decodes as a supported raster format. -/
structure RawImage where
  bytes_len : Nat
  decodable : Bool
deriving DecidableEq, Repr

inductive ValidationError
  | badCount
  | badFormat
  | tooLarge
deriving DecidableEq, Repr

/-- Modelled from the spec: the Image Validator (§4.1) rejects with a
`ValidationError` if the count is 0 or exceeds the configured maximum, if any
item fails to decode, or if any item exceeds the byte-size ceiling; otherwise
it returns the ordered image list unchanged. -/
def validateImages (imgs : List RawImage) (maxImages maxBytes : Nat) :
    Except ValidationError (List RawImage) :=
  if imgs.length = 0 ∨ maxImages < imgs.length then .error .badCount
  else if imgs.any (fun i => !i.decodable) then .error .badFormat
  else if imgs.any (fun i => maxBytes < i.bytes_len) then .error .tooLarge
  else .ok imgs

/-! ### Image uploader (from `frontend/src/components/ImageUploader.tsx`;
files are identified by name) -/

/-- Structure `AnalyzeFormData` from `types/claim.ts`. -/
structure AnalyzeFormData where
  images : List String
  vehicle_class : VehicleClass
  workshop_type : WorkshopType
  pricing_mode : PricingMode
  vehicle_make : Option String
deriving DecidableEq, Repr

/-- Handler `onDrop` (ImageUploader.tsx lines 28–33): the accepted files are appended
to the held list and the result is truncated with `slice(0, 6)`, so the
earlier files take precedence. -/
def dropFiles (files accepted : List String) : List String :=
  (files ++ accepted).take 6

/-- Handler `removeFile` (ImageUploader.tsx lines 42–44): drops the element at the
given index, keeping every other position (`filter((_, i) => i !== idx)`). -/
def removeFileAt (files : List String) (idx : Nat) : List String :=
  files.eraseIdx idx

/-- One user interaction with the uploader state. -/
inductive UploaderOp
  | drop (accepted : List String)
  | remove (idx : Nat)
deriving DecidableEq, Repr

def applyUploaderOp (files : List String) : UploaderOp → List String
  | .drop accepted => dropFiles files accepted
  | .remove idx => removeFileAt files idx

def applyUploaderOps (files : List String) (ops : List UploaderOp) : List String :=
  ops.foldl applyUploaderOp files

/-- Handler `handleSubmit` (ImageUploader.tsx lines 46–56): returns early when the
held list is empty (`if (!files.length) return`), otherwise issues the form
payload, with `vehicle_make: vehicleMake || undefined`. -/
def handleSubmit (files : List String) (vc : VehicleClass) (wt : WorkshopType)
    (pm : PricingMode) (make : String) : Option AnalyzeFormData :=
  if files.length = 0 then none
  else some
    { images := files
      vehicle_class := vc
      workshop_type := wt
      pricing_mode := pm
      vehicle_make := if make = "" then none else some make }

/-! ### API client (from `frontend/src/api/claimApi.ts`) -/

/-- The axios instance configuration (claimApi.ts lines 6–9). -/
structure ApiConfig where
  baseURL : String
  timeout_ms : Nat
deriving DecidableEq, Repr

/-- Constant `api` from claimApi.ts: base URL `/api`, timeout 120 000 ms. -/
def api : ApiConfig := { baseURL := "/api", timeout_ms := 120000 }

inductive RequestOutcome
  | completed
  | failedByTimeout
deriving DecidableEq, Repr

/-- Modelled from the spec: the waiting semantics of a timed request (§5) —
the Reasoning Adapter call is the single blocking point and "must run under
an explicit timeout … after which it is treated as a failure".  Given the
arrival time of the response (`none` when it never arrives), the client
waits at most the configured timeout and then fails. -/
def awaitResponse (cfg : ApiConfig) (arrival : Option Nat) : RequestOutcome × Nat :=
  match arrival with
  | some t => if t ≤ cfg.timeout_ms then (.completed, t) else (.failedByTimeout, cfg.timeout_ms)
  | none => (.failedByTimeout, cfg.timeout_ms)

/-- Function `getHeatmapUrl` (claimApi.ts lines 54–56):
`heatmapPath.startsWith("/") ? heatmapPath : "/static/" + heatmapPath`.
The single-character `startsWith("/")` test is embedded as a first-character
test on the character list of the string. -/
def getHeatmapUrl (heatmapPath : String) : String :=
  if heatmapPath.data.head? = some '/' then heatmapPath else "/static/" ++ heatmapPath

/-! ### Orientation codes (display map from
`frontend/src/components/HeatmapViewer.tsx`; derivation modelled from the
spec §4.2 step 6) -/

/-- Table `orientationMap` (HeatmapViewer.tsx lines 18–29) as an association list,
in source order. -/
def orientationPairs : List (String × String) :=
  [("12", "12 o\x27clock — Front"),
   ("3", "3 o\x27clock — Right"),
   ("6", "6 o\x27clock — Rear"),
   ("9", "9 o\x27clock — Left"),
   ("12-9", "12-9 — Front-Left"),
   ("12-3", "12-3 — Front-Right"),
   ("6-9", "6-9 — Rear-Left"),
   ("6-3", "6-3 — Rear-Right"),
   ("C", "Center"),
   ("?", "Unknown")]

/-- Lookup in `orientationMap`. -/
def orientationMap (code : String) : Option String :=
  orientationPairs.lookup code

/-- The fixed ten-element orientation vocabulary (Glossary). -/
def orientationCodes : List String :=
  orientationPairs.map Prod.fst

/-- Function `orientationLabel` (HeatmapViewer.tsx lines 31–32):
`perception?.orientation ? (orientationMap[orientation] ?? orientation) :
"Unknown"`.  A missing perception or orientation — including the falsy empty
string — yields "Unknown"; an unmapped non-empty code falls through
unchanged. -/
def orientationLabel (orientation : Option String) : String :=
  match orientation with
  | none => "Unknown"
  | some code => if code = "" then "Unknown" else (orientationMap code).getD code

/-- Modelled from the spec: the clock-face grid (§4.2 step 6) mapping a
centroid onto one of the orientation codes relative to the image center,
with a central band of one sixth of each dimension counting as "C". -/
def clockFaceCode (cx cy : Int) (w h : Int) : String :=
  let dx := cx - w / 2
  let dy := cy - h / 2
  let tx := w / 6
  let ty := h / 6
  if -tx ≤ dx ∧ dx ≤ tx ∧ -ty ≤ dy ∧ dy ≤ ty then "C"
  else if dy < -ty then
    if dx < -tx then "12-9" else if tx < dx then "12-3" else "12"
  else if ty < dy then
    if dx < -tx then "6-9" else if tx < dx then "6-3" else "6"
  else if dx < 0 then "9" else "3"

/-- Modelled from the spec: orientation derivation (§4.2 step 6) — the
centroid of the highest-area region (regions are sorted by descending area,
so the head) is mapped onto the clock-face grid; if no regions survive the
code is "?". -/
def deriveOrientation (regions : List DamageRegion) (w h : Int) : String :=
  match regions with
  | [] => "?"
  | r :: _ => clockFaceCode r.centroid_x r.centroid_y w h

/-! ### Approval badges (from `frontend/src/components/ApprovalBadge.tsx`
and the alternate variant in the unnamed source `part_001`) -/

/-- The three distinct presentations an approval badge can render. -/
inductive BadgeView
  | approvedView
  | reviewView
  | declinedView
deriving DecidableEq, Repr

/-- Component `ApprovalBadge` (frontend/src/components/ApprovalBadge.tsx lines 13–14):
`approved = (status == "AUTO_APPROVE")` and every non-approved status renders
the MANUAL REVIEW presentation — there is no DECLINED branch. -/
def approvalBadgeView (status : ApprovalStatus) : BadgeView :=
  if status = .AUTO_APPROVE then .approvedView else .reviewView

/-- The alternate `ApprovalBadge` (unnamed source `part_001` lines 15–18):
`declined = (status == "DECLINED" or total == 0)`,
`approved = (status == "AUTO_APPROVE" and not declined)`, and the declined state
wins over the other two. -/
def altApprovalBadgeView (status : ApprovalStatus) (total : Int) : BadgeView :=
  let declined := status = .DECLINED ∨ total = 0
  let approved := status = .AUTO_APPROVE ∧ ¬ (status = .DECLINED ∨ total = 0)
  if declined then .declinedView
  else if approved then .approvedView
  else .reviewView

/-! ### Concrete fixtures used to evaluate the model on closed inputs -/

/-- A small concrete catalog (Hyderabad-style whole-INR figures). -/
def demoCatalog : Catalog where
  basePrice := fun k vc _ =>
    if k = "front_bumper" then
      some (match vc with | .luxury => 60000 | _ => 5000)
    else none
  classAvgPrice := fun _ => 8000
  laborHours := fun _ _ => 2
  hourlyRate := fun wt => match wt with | .independent => 500 | .showroom => 800

/-- A concrete REPAIR decision (spec §8 scenario: front bumper, severity 3). -/
def demoRepair : PartDecision where
  part := "Front Bumper"
  part_key := "front_bumper"
  decision := .REPAIR
  severity_score := 3
  justification := "scuffed bumper"
  x_percentage := 50
  y_percentage := 70

/-- A concrete REPLACE decision at the top severity. -/
def demoReplace : PartDecision where
  part := "Front Bumper"
  part_key := "front_bumper"
  decision := .REPLACE
  severity_score := 6
  justification := "crushed bumper"
  x_percentage := 50
  y_percentage := 70

/-- A concrete perception result with no surviving damage regions. -/
def demoPerception : PerceptionResult where
  poi := "Front"
  orientation := "?"
  damage_regions := []
  image_metrics := { brightness_pct := 50, blur_score := 120, width := 640, height := 480, contrast_score_pct := 40 }
  heatmap_path := none

/-! ## Helper lemmas -/

theorem partCost_nonneg (base pct : Nat) : 0 ≤ partCost base pct :=
  Int.ediv_nonneg (mul_nonneg (Int.natCast_nonneg _) (Int.natCast_nonneg _)) (by norm_num)

theorem gstOf_nonneg (sub : Int) (gstNum gstDen : Nat) (h : 0 ≤ sub) :
    0 ≤ gstOf sub gstNum gstDen :=
  Int.ediv_nonneg
    (add_nonneg (mul_nonneg h (Int.natCast_nonneg _))
      (Int.ediv_nonneg (Int.natCast_nonneg _) (by norm_num)))
    (Int.natCast_nonneg _)

theorem gstOf_mono (s1 s2 : Int) (gstNum gstDen : Nat) (h : s1 ≤ s2) :
    gstOf s1 gstNum gstDen ≤ gstOf s2 gstNum gstDen := by
  unfold gstOf
  rcases Nat.eq_zero_or_pos gstDen with hd | hd
  · simp [hd]
  · exact Int.ediv_le_ediv (by exact_mod_cast hd)
      (add_le_add_right (mul_le_mul_of_nonneg_right h (Int.natCast_nonneg _)) _)

theorem partCost_mono (base p1 p2 : Nat) (h : p1 ≤ p2) :
    partCost base p1 ≤ partCost base p2 :=
  Int.ediv_le_ediv (by norm_num)
    (mul_le_mul_of_nonneg_left (by exact_mod_cast h) (Int.natCast_nonneg _))

theorem priceLineItem_subtotal_nonneg (cat : Catalog) (vc : VehicleClass)
    (wt : WorkshopType) (pm : PricingMode) (gstNum gstDen : Nat) (d : PartDecision) :
    0 ≤ (priceLineItem cat vc wt pm gstNum gstDen d).subtotal_inr :=
  add_nonneg (partCost_nonneg _ _) (mul_nonneg (Int.natCast_nonneg _) (Int.natCast_nonneg _))

theorem priceLineItem_total_nonneg (cat : Catalog) (vc : VehicleClass)
    (wt : WorkshopType) (pm : PricingMode) (gstNum gstDen : Nat) (d : PartDecision) :
    0 ≤ (priceLineItem cat vc wt pm gstNum gstDen d).total_inr :=
  add_nonneg (priceLineItem_subtotal_nonneg cat vc wt pm gstNum gstDen d)
    (gstOf_nonneg _ gstNum gstDen (priceLineItem_subtotal_nonneg cat vc wt pm gstNum gstDen d))

theorem priceLineItem_total_eq (cat : Catalog) (vc : VehicleClass)
    (wt : WorkshopType) (pm : PricingMode) (gstNum gstDen : Nat) (d : PartDecision) :
    (priceLineItem cat vc wt pm gstNum gstDen d).total_inr
      = (priceLineItem cat vc wt pm gstNum gstDen d).subtotal_inr
        + (priceLineItem cat vc wt pm gstNum gstDen d).gst_inr := rfl

theorem sum_total_split (l : List EstimateLineItem)
    (h : ∀ x ∈ l, x.total_inr = x.subtotal_inr + x.gst_inr) :
    (l.map (·.total_inr)).sum = (l.map (·.subtotal_inr)).sum + (l.map (·.gst_inr)).sum := by
  induction l with
  | nil => simp
  | cons a l ih =>
    have ha := h a (List.mem_cons_self a l)
    have hl := ih (fun x hx => h x (List.mem_cons_of_mem a hx))
    simp only [List.map_cons, List.sum_cons, ha, hl]
    ring

/-! ## Claim theorems -/

/-- Claim C1: for every input to the pricing engine, the grand total is
non-negative, equals subtotal + gst exactly, and equals the sum of the line
line-item totals with no independent recomputation. -/
theorem grand_total_exact (decisions : List PartDecision) (vc : VehicleClass)
    (wt : WorkshopType) (pm : PricingMode) (gstNum gstDen : Nat) (cat : Catalog) :
    0 ≤ (price decisions vc wt pm gstNum gstDen cat).grand_total_inr ∧
    (price decisions vc wt pm gstNum gstDen cat).grand_total_inr
      = (price decisions vc wt pm gstNum gstDen cat).subtotal_inr
        + (price decisions vc wt pm gstNum gstDen cat).gst_inr ∧
    (price decisions vc wt pm gstNum gstDen cat).grand_total_inr
      = ((price decisions vc wt pm gstNum gstDen cat).line_items.map (·.total_inr)).sum := by
  refine ⟨?_, ?_, rfl⟩
  · apply List.sum_nonneg
    intro x hx
    simp only [price, List.mem_map] at hx
    obtain ⟨y, hy, rfl⟩ := hx
    obtain ⟨d, _, rfl⟩ := hy
    exact priceLineItem_total_nonneg cat vc wt pm gstNum gstDen d
  · show (_ : List Int).sum = _
    apply sum_total_split
    intro x hx
    simp only [List.mem_map] at hx
    obtain ⟨d, _, rfl⟩ := hx
    exact priceLineItem_total_eq cat vc wt pm gstNum gstDen d

/-- Claim C2: the approval decision is a total function of the grand total
and the vehicle class — zero grand total is DECLINED, a non-zero grand total
strictly below the class threshold is AUTO_APPROVE, and otherwise (the exact
threshold included) it is MANUAL_REVIEW. -/
theorem approval_total_function (decisions : List PartDecision) (vc : VehicleClass)
    (wt : WorkshopType) (pm : PricingMode) (gstNum gstDen : Nat) (cat : Catalog) :
    ((price decisions vc wt pm gstNum gstDen cat).grand_total_inr = 0 →
      (price decisions vc wt pm gstNum gstDen cat).approval_status = .DECLINED) ∧
    ((price decisions vc wt pm gstNum gstDen cat).grand_total_inr ≠ 0 →
      (price decisions vc wt pm gstNum gstDen cat).grand_total_inr < approvalThreshold vc →
      (price decisions vc wt pm gstNum gstDen cat).approval_status = .AUTO_APPROVE) ∧
    ((price decisions vc wt pm gstNum gstDen cat).grand_total_inr ≠ 0 →
      approvalThreshold vc ≤ (price decisions vc wt pm gstNum gstDen cat).grand_total_inr →
      (price decisions vc wt pm gstNum gstDen cat).approval_status = .MANUAL_REVIEW) ∧
    ((price decisions vc wt pm gstNum gstDen cat).grand_total_inr = approvalThreshold vc →
      (price decisions vc wt pm gstNum gstDen cat).approval_status = .MANUAL_REVIEW) := by
  have hstat : (price decisions vc wt pm gstNum gstDen cat).approval_status
      = approvalFor (price decisions vc wt pm gstNum gstDen cat).grand_total_inr vc := rfl
  have hpos : 0 < approvalThreshold vc := by cases vc <;> decide
  rw [hstat]
  generalize (price decisions vc wt pm gstNum gstDen cat).grand_total_inr = g
  unfold approvalFor
  refine ⟨?_, ?_, ?_, ?_⟩
  · intro h; rw [if_pos h]
  · intro h hlt; rw [if_neg h, if_pos hlt]
  · intro h hge; rw [if_neg h, if_neg (not_lt.mpr hge)]
  · intro h
    have hne : g ≠ 0 := by rw [h]; exact ne_of_gt hpos
    rw [if_neg hne, if_neg (by rw [h]; exact lt_irrefl _)]

/-- Witness for C2 at concrete inputs: an empty decision list is DECLINED, a
severity-3 repair on a hatchback is below the threshold and AUTO_APPROVE, and
a severity-6 luxury replacement is above the threshold and MANUAL_REVIEW. -/
theorem approval_total_function_witness :
    (price [] .hatchback .independent .aftermarket 18 100 demoCatalog).approval_status = .DECLINED ∧
    (price [demoRepair] .hatchback .independent .aftermarket 18 100 demoCatalog).approval_status = .AUTO_APPROVE ∧
    (price [demoReplace] .luxury .independent .aftermarket 18 100 demoCatalog).approval_status = .MANUAL_REVIEW := by
  refine ⟨?_, ?_, ?_⟩
  · exact (approval_total_function [] .hatchback .independent .aftermarket 18 100 demoCatalog).1
      (by decide)
  · exact (approval_total_function [demoRepair] .hatchback .independent .aftermarket 18 100 demoCatalog).2.1
      (by decide) (by decide)
  · exact (approval_total_function [demoReplace] .luxury .independent .aftermarket 18 100 demoCatalog).2.2.1
      (by decide) (by decide)

/-- Claim C4: the pricing engine is deterministic — two runs on equal
decisions, vehicle class, workshop type, pricing mode, GST rate and catalog
produce identical `EstimateResult`s (the model is a pure function with no
I/O or randomness). -/
theorem price_deterministic (ds ds' : List PartDecision) (vc vc' : VehicleClass)
    (wt wt' : WorkshopType) (pm pm' : PricingMode) (gstNum gstNum' gstDen gstDen' : Nat)
    (cat cat' : Catalog)
    (h1 : ds = ds') (h2 : vc = vc') (h3 : wt = wt') (h4 : pm = pm')
    (h5 : gstNum = gstNum') (h6 : gstDen = gstDen') (h7 : cat = cat') :
    price ds vc wt pm gstNum gstDen cat = price ds' vc' wt' pm' gstNum' gstDen' cat' := by
  subst h1; subst h2; subst h3; subst h4; subst h5; subst h6; subst h7; rfl

/-- Witness for C4: two runs of the engine on the same concrete claim
coincide. -/
theorem price_deterministic_witness :
    price [demoRepair] .hatchback .independent .aftermarket 18 100 demoCatalog
      = price [demoRepair] .hatchback .independent .aftermarket 18 100 demoCatalog :=
  price_deterministic [demoRepair] [demoRepair] .hatchback .hatchback
    .independent .independent .aftermarket .aftermarket 18 18 100 100
    demoCatalog demoCatalog rfl rfl rfl rfl rfl rfl rfl

theorem repairSeverityPct_le_succ (n : Nat) :
    repairSeverityPct n ≤ repairSeverityPct (n + 1) := by
  rcases n with _|_|_|_|_|_|n
  · decide
  · decide
  · decide
  · decide
  · decide
  · decide
  · exact le_rfl

theorem replaceSeverityPct_le_succ (n : Nat) :
    replaceSeverityPct n ≤ replaceSeverityPct (n + 1) := by
  rcases n with _|_|_|_|_|_|n
  · decide
  · decide
  · decide
  · decide
  · decide
  · decide
  · exact le_rfl

theorem severityPct_mono (dec : RepairDecision) {s1 s2 : Nat} (h : s1 ≤ s2) :
    severityPct dec s1 ≤ severityPct dec s2 := by
  cases dec
  · exact monotone_nat_of_le_succ repairSeverityPct_le_succ h
  · exact monotone_nat_of_le_succ replaceSeverityPct_le_succ h

/-- Claim C5: for a fixed part, decision and configuration, the line-item
cost is monotonically non-decreasing in the severity score on [1,6] — for
the part cost, the pre-GST subtotal and the grand line total, on whichever
of the REPAIR / REPLACE curves the decision selects. -/
theorem line_cost_monotone_in_severity (cat : Catalog) (vc : VehicleClass)
    (wt : WorkshopType) (pm : PricingMode) (gstNum gstDen : Nat) (d : PartDecision)
    (s1 s2 : Nat) (_h1 : 1 ≤ s1) (h12 : s1 ≤ s2) (_h2 : s2 ≤ 6) :
    (priceLineItem cat vc wt pm gstNum gstDen { d with severity_score := s1 }).part_cost_inr
      ≤ (priceLineItem cat vc wt pm gstNum gstDen { d with severity_score := s2 }).part_cost_inr ∧
    (priceLineItem cat vc wt pm gstNum gstDen { d with severity_score := s1 }).subtotal_inr
      ≤ (priceLineItem cat vc wt pm gstNum gstDen { d with severity_score := s2 }).subtotal_inr ∧
    (priceLineItem cat vc wt pm gstNum gstDen { d with severity_score := s1 }).total_inr
      ≤ (priceLineItem cat vc wt pm gstNum gstDen { d with severity_score := s2 }).total_inr := by
  have hpc : partCost ((cat.basePrice d.part_key vc pm).getD (cat.classAvgPrice vc))
        (severityPct d.decision s1)
      ≤ partCost ((cat.basePrice d.part_key vc pm).getD (cat.classAvgPrice vc))
        (severityPct d.decision s2) :=
    partCost_mono _ _ _ (severityPct_mono d.decision h12)
  have hsub : (priceLineItem cat vc wt pm gstNum gstDen { d with severity_score := s1 }).subtotal_inr
      ≤ (priceLineItem cat vc wt pm gstNum gstDen { d with severity_score := s2 }).subtotal_inr :=
    add_le_add_right hpc _
  exact ⟨hpc, hsub, add_le_add hsub (gstOf_mono _ _ gstNum gstDen hsub)⟩

/-- Witness for C5: raising the severity of the demo repair from 2 to 5
does not decrease its part cost, subtotal or total. -/
theorem line_cost_monotone_in_severity_witness :
    (priceLineItem demoCatalog .hatchback .independent .aftermarket 18 100
        { demoRepair with severity_score := 2 }).total_inr
      ≤ (priceLineItem demoCatalog .hatchback .independent .aftermarket 18 100
        { demoRepair with severity_score := 5 }).total_inr :=
  (line_cost_monotone_in_severity demoCatalog .hatchback .independent .aftermarket
    18 100 demoRepair 2 5 (by decide) (by decide) (by decide)).2.2

/-- Claim C3: on every failure of the vision-reasoning collaborator the
Reasoning Adapter (a total function — it cannot raise) degrades to an empty
`LLMResult` with `model_used = "fallback"` plus a warning, and the pipeline
still completes with a response whose warnings list is non-empty and whose
approval status is DECLINED. -/
theorem adapter_fallback (claimId : String) (perception : PerceptionResult)
    (priorWarnings : List String) (outcome : CollabOutcome) (vc : VehicleClass)
    (wt : WorkshopType) (pm : PricingMode) (gstNum gstDen : Nat) (cat : Catalog)
    (h : outcome.isFailure = true) :
    (runPipeline claimId perception priorWarnings outcome vc wt pm gstNum gstDen cat).repair_decisions.model_used = "fallback" ∧
    (runPipeline claimId perception priorWarnings outcome vc wt pm gstNum gstDen cat).repair_decisions.decisions = [] ∧
    (runPipeline claimId perception priorWarnings outcome vc wt pm gstNum gstDen cat).errors ≠ [] ∧
    (runPipeline claimId perception priorWarnings outcome vc wt pm gstNum gstDen cat).estimate.approval_status = .DECLINED := by
  cases outcome with
  | success ds m => simp [CollabOutcome.isFailure] at h
  | unreachable =>
    refine ⟨rfl, rfl, ?_, ?_⟩
    · simp [runPipeline, runReasoningAdapter]
    · simp [runPipeline, runReasoningAdapter, price, approvalFor]
  | timedOut =>
    refine ⟨rfl, rfl, ?_, ?_⟩
    · simp [runPipeline, runReasoningAdapter]
    · simp [runPipeline, runReasoningAdapter, price, approvalFor]
  | unparsable =>
    refine ⟨rfl, rfl, ?_, ?_⟩
    · simp [runPipeline, runReasoningAdapter]
    · simp [runPipeline, runReasoningAdapter, price, approvalFor]

/-- Witness for C3: a concrete timed-out collaborator call still yields a
complete response with the fallback marker, no decisions, a warning and a
DECLINED estimate. -/
theorem adapter_fallback_witness :
    (runPipeline "CLM-1" demoPerception [] .timedOut .hatchback .independent .aftermarket 18 100 demoCatalog).repair_decisions.model_used = "fallback" ∧
    (runPipeline "CLM-1" demoPerception [] .timedOut .hatchback .independent .aftermarket 18 100 demoCatalog).repair_decisions.decisions = [] ∧
    (runPipeline "CLM-1" demoPerception [] .timedOut .hatchback .independent .aftermarket 18 100 demoCatalog).errors ≠ [] ∧
    (runPipeline "CLM-1" demoPerception [] .timedOut .hatchback .independent .aftermarket 18 100 demoCatalog).estimate.approval_status = .DECLINED :=
  adapter_fallback "CLM-1" demoPerception [] .timedOut .hatchback .independent
    .aftermarket 18 100 demoCatalog (by decide)

theorem applyUploaderOps_le_six (ops : List UploaderOp) (s : List String)
    (hs : s.length ≤ 6) : (applyUploaderOps s ops).length ≤ 6 := by
  induction ops generalizing s with
  | nil => exact hs
  | cons op ops ih =>
    cases op with
    | drop accepted =>
      exact ih (dropFiles s accepted)
        (by simp only [dropFiles, List.length_take]; exact min_le_left _ _)
    | remove idx =>
      exact ih (removeFileAt s idx) (le_trans (List.length_eraseIdx_le s idx) hs)

/-- Claim C6: the image-count bound is an invariant of the uploader and the
validator — every sequence of drop/remove interactions leaves at most 6 held
files (a drop keeps only the first 6, earlier files taking precedence), a
submission is only issued with at least one image, and a request with 0
images or more than the configured maximum is rejected. -/
theorem image_count_invariant :
    (∀ ops : List UploaderOp, (applyUploaderOps [] ops).length ≤ 6) ∧
    (∀ prev accepted : List String, 6 ≤ prev.length → dropFiles prev accepted = prev.take 6) ∧
    (∀ (files : List String) (vc : VehicleClass) (wt : WorkshopType) (pm : PricingMode)
      (make : String) (payload : AnalyzeFormData),
      handleSubmit files vc wt pm make = some payload → 1 ≤ payload.images.length) ∧
    (∀ (imgs : List RawImage) (maxImages maxBytes : Nat),
      imgs.length = 0 ∨ maxImages < imgs.length →
      validateImages imgs maxImages maxBytes = .error .badCount) := by
  refine ⟨?_, ?_, ?_, ?_⟩
  · intro ops
    exact applyUploaderOps_le_six ops [] (by simp)
  · intro prev accepted h
    unfold dropFiles
    exact List.take_append_of_le_length h
  · intro files vc wt pm make payload h
    unfold handleSubmit at h
    split at h
    · exact absurd h (by simp)
    · rename_i hne
      injection h with h
      subst h
      simpa using Nat.pos_of_ne_zero hne
  · intro imgs maxImages maxBytes h
    unfold validateImages
    rw [if_pos h]

/-- Witness for C6: a full six-file tray ignores a seventh dropped file, a
one-image submission carries one image, and an empty request is rejected
with the count error. -/
theorem image_count_invariant_witness :
    dropFiles ["a", "b", "c", "d", "e", "f"] ["g"] = ["a", "b", "c", "d", "e", "f"].take 6 ∧
    1 ≤ (({ images := ["a"], vehicle_class := .hatchback, workshop_type := .independent,
            pricing_mode := .aftermarket, vehicle_make := none } : AnalyzeFormData)).images.length ∧
    validateImages [] 6 5000000 = .error .badCount := by
  refine ⟨?_, ?_, ?_⟩
  · exact image_count_invariant.2.1 _ _ (by decide)
  · exact image_count_invariant.2.2.1 ["a"] .hatchback .independent .aftermarket "" _ rfl
  · exact image_count_invariant.2.2.2 [] 6 5000000 (Or.inl rfl)

/-- Claim C7: the analyze call is configured with the explicit finite
timeout of 120 000 ms, the modelled wait never exceeds that bound, and a
response that does not arrive within the bound is treated as a failure
rather than waited for indefinitely. -/
theorem analyze_timeout_bounded :
    api.timeout_ms = 120000 ∧
    0 < api.timeout_ms ∧
    (∀ arrival : Option Nat, (awaitResponse api arrival).2 ≤ api.timeout_ms) ∧
    (awaitResponse api none).1 = .failedByTimeout ∧
    (∀ t : Nat, api.timeout_ms < t → (awaitResponse api (some t)).1 = .failedByTimeout) := by
  refine ⟨rfl, by decide, ?_, rfl, ?_⟩
  · intro arrival
    cases arrival with
    | none => exact le_rfl
    | some t =>
      rcases le_or_lt t api.timeout_ms with hle | hlt
      · simp [awaitResponse, hle]
      · simp [awaitResponse, not_le.mpr hlt]
  · intro t ht
    simp [awaitResponse, not_le.mpr ht]

/-- Witness for C7: a response arriving after the 120 000 ms budget is a
timeout failure. -/
theorem analyze_timeout_bounded_witness :
    (awaitResponse api (some 120001)).1 = .failedByTimeout :=
  analyze_timeout_bounded.2.2.2.2 120001 (by decide)

theorem lookup_isSome_iff_mem_keys (l : List (String × String)) (c : String) :
    (l.lookup c).isSome ↔ c ∈ l.map Prod.fst := by
  induction l with
  | nil => simp [List.lookup]
  | cons p l ih =>
    obtain ⟨k, v⟩ := p
    by_cases h : c = k
    · subst h
      simp [List.lookup]
    · simp [List.lookup, beq_false_of_ne h, h, ih]

/-- Claim C8: every derived orientation code lies in the fixed ten-element
vocabulary (with "?" when no damage regions survive), the display map labels
exactly those ten codes, it maps "?" to "Unknown", and a missing orientation
also displays as "Unknown". -/
theorem orientation_vocabulary :
    (∀ (regions : List DamageRegion) (w h : Int),
      deriveOrientation regions w h ∈ orientationCodes) ∧
    (∀ w h : Int, deriveOrientation [] w h = "?") ∧
    (∀ code : String, (orientationMap code).isSome ↔ code ∈ orientationCodes) ∧
    orientationMap "?" = some "Unknown" ∧
    orientationLabel (some "?") = "Unknown" ∧
    orientationLabel none = "Unknown" := by
  refine ⟨?_, fun _ _ => rfl,
    fun code => lookup_isSome_iff_mem_keys orientationPairs code,
    by decide, by decide, rfl⟩
  intro regions w h
  cases regions with
  | nil =>
    show ("?" : String) ∈ orientationCodes
    decide
  | cons r rest =>
    show clockFaceCode r.centroid_x r.centroid_y w h ∈ orientationCodes
    simp only [clockFaceCode]
    split_ifs <;> decide

/-- Claim C9: `getHeatmapUrl` is normalizing and idempotent — its output
always begins with the character `/`, applying it twice equals applying it
once, and an input already beginning with `/` is returned unchanged. -/
theorem getHeatmapUrl_normalizing :
    (∀ s : String, (getHeatmapUrl s).data.head? = some '/') ∧
    (∀ s : String, getHeatmapUrl (getHeatmapUrl s) = getHeatmapUrl s) ∧
    (∀ s : String, s.data.head? = some '/' → getHeatmapUrl s = s) := by
  have habs : ∀ s : String, s.data.head? = some '/' → getHeatmapUrl s = s := by
    intro s h
    unfold getHeatmapUrl
    rw [if_pos h]
  have hhead : ∀ s : String, (getHeatmapUrl s).data.head? = some '/' := by
    intro s
    unfold getHeatmapUrl
    split
    · assumption
    · rw [String.data_append]
      rfl
  exact ⟨hhead, fun s => habs _ (hhead s), habs⟩

/-- Witness for C9: a path already rooted at `/` passes through unchanged. -/
theorem getHeatmapUrl_normalizing_witness :
    getHeatmapUrl "/static/heatmap_1.png" = "/static/heatmap_1.png" :=
  getHeatmapUrl_normalizing.2.2 "/static/heatmap_1.png" (by decide)

/-- Claim C10: the component-folder `ApprovalBadge` collapses the
three-valued status to two presentations — DECLINED renders the MANUAL
REVIEW presentation, the approved presentation appears exactly for
AUTO_APPROVE, and no declined presentation exists — while the alternate
badge variant renders its distinct declined state exactly when the status is
DECLINED or the total is 0. -/
theorem badge_presentation :
    approvalBadgeView .DECLINED = .reviewView ∧
    (∀ s : ApprovalStatus, approvalBadgeView s = .approvedView ↔ s = .AUTO_APPROVE) ∧
    (∀ s : ApprovalStatus, approvalBadgeView s ≠ .declinedView) ∧
    (∀ (s : ApprovalStatus) (total : Int),
      altApprovalBadgeView s total = .declinedView ↔ (s = .DECLINED ∨ total = 0)) := by
  refine ⟨rfl, ?_, ?_, ?_⟩
  · intro s
    cases s <;> simp [approvalBadgeView]
  · intro s
    cases s <;> simp [approvalBadgeView]
  · intro s total
    simp only [altApprovalBadgeView]
    split_ifs with hd ha
    · simp [hd]
    · simp [hd]
    · simp [hd]

end InsureClaim
